import Mathlib

/-!
Verification of the gaze-mapping engine of `GazeMappingApplication`.

The development is a shallow embedding of the Python sources:
* `receiver.py` (`receive_frames`): the network thread that decodes a message
  and publishes it into the shared single-slot mailbox
  (`config.shared_data` guarded by `config.frame_lock`, with the
  `config.frame_available` event as the availability flag);
* `main_app.py` (`GazeApp.update_frame`): the per-tick processing pipeline
  (undistortion, ORB detection, FLANN matching, ratio test, homography,
  gaze projection, AOI tracking, heatmap history, recording);
* `main_app.py` (`GazeApp.reset_counts`): the AOI statistics reset;
* `main_app.py` (`GazeApp.apply_settings`): session configuration.

Python floats are modelled as exact rationals (`ℚ`).  External OpenCV
computations (image decoding, `detectAndCompute`, `knnMatch`,
`findHomography`, `undistortPoints`, `remap`) are modelled as unconstrained
function parameters gathered in an `Env` structure: the claims under
verification depend only on the control flow around those calls, never on
their numeric content.  Purely visual output (rendered composite image,
labels, FPS text, the live plot) is not modelled; the persistent state that
feeds it (`gaze_history`, the AOI list, the recorded rows) is.
-/

namespace GazeMapping

/-! ## Mailbox payloads (receiver.py / config.py)

`config.shared_data` starts with every field `None` and is only ever
written by `receive_frames`, which assigns all fields together under
`frame_lock`.  The consumer rejects the initial all-`None` state through
its `frame_proc is None` check, so the slot is modelled as
`Option FramePayload` with all-field payloads. -/

/-- An inbound ZeroMQ message as read by `receive_frames` (receiver.py,
lines 30-37).  `image` stands for the decoded `frame_temp` pixels;
`score_right`, `score_left` and `system_time` are optional fields of the
Python dict (`message.get`). -/
structure Message where
  frame_num : Int
  gaze_x : ℚ
  gaze_y : ℚ
  image : Nat
  score_right : Option ℚ
  score_left : Option ℚ
  system_time : Option String
deriving DecidableEq

/-- The contents of `config.shared_data` after a publish (receiver.py,
lines 44-51). -/
structure FramePayload where
  frame : Nat
  gaze_x : ℚ
  gaze_y : ℚ
  frame_num : Int
  score_right : ℚ
  score_left : ℚ
  system_time : Option String
deriving DecidableEq

/-- The single-slot mailbox: `config.shared_data` plus the
`config.frame_available` event. -/
structure Channel where
  slot : Option FramePayload
  available : Bool
deriving DecidableEq

/-- The slot contents written for a message (receiver.py, lines 44-51):
missing optional scores default to `0` via the dict lookups with
default 0 on the score fields. -/
def payloadOfMessage (m : Message) : FramePayload :=
  { frame := m.image
    gaze_x := m.gaze_x
    gaze_y := m.gaze_y
    frame_num := m.frame_num
    score_right := m.score_right.getD 0
    score_left := m.score_left.getD 0
    system_time := m.system_time }

/-- One iteration of the `receive_frames` loop after decoding: overwrite
the slot and set the availability event (receiver.py, lines 44-52). -/
def publishMsg (_ch : Channel) (m : Message) : Channel :=
  { slot := some (payloadOfMessage m), available := true }

/-- The consumer-side take, as inlined in `GazeApp.update_frame`
(main_app.py, lines 979-993) for a normal (non-preview) tick: if the
availability event is set, clear it and read the slot; a `None` frame
(or a clear event) means nothing is available. -/
def tryTake (ch : Channel) : Option FramePayload × Channel :=
  if ch.available then
    ((match ch.slot with
      | none => none
      | some p => some p), { ch with available := false })
  else (none, ch)

/-! ## AOI state machine (aoi.py / main_app.py lines 1100-1120) -/

/-- An axis-aligned rectangle in reference-image coordinates (the
`QRectF` stored in `AOI.rect`). -/
structure Rect where
  left : ℚ
  top : ℚ
  width : ℚ
  height : ℚ
deriving DecidableEq

/-- The `QRectF.contains(QPointF(x, y))` test: the point is inside or on the edge
of the rectangle. -/
def Rect.containsPt (r : Rect) (x y : ℚ) : Bool :=
  decide (r.left ≤ x) && decide (x ≤ r.left + r.width) &&
  decide (r.top ≤ y) && decide (y ≤ r.top + r.height)

/-- The `AOI` class of aoi.py. -/
structure AOI where
  rect : Rect
  name : String
  hit_count : Nat
  dwell_time : ℚ
  entry_time : Option ℚ
  is_gaze_inside : Bool
deriving DecidableEq

/-- The per-AOI update of one tick (main_app.py, lines 1104-1120),
given the tick's parsed system time `now` and the projected gaze point
`(x, y)` in reference-image coordinates. -/
def aoiStep (now x y : ℚ) (a : AOI) : AOI :=
  let gaze_inside := a.rect.containsPt x y
  if gaze_inside then
    if a.is_gaze_inside then
      { a with is_gaze_inside := true }
    else
      { a with hit_count := a.hit_count + 1
               entry_time := some now
               is_gaze_inside := true }
  else
    if a.is_gaze_inside then
      match a.entry_time with
      | some t =>
          { a with dwell_time := a.dwell_time + (now - t)
                   entry_time := none
                   is_gaze_inside := false }
      | none => { a with is_gaze_inside := false }
    else
      { a with is_gaze_inside := false }

/-- A tick as seen by one AOI: the parsed system time and the projected
gaze point. -/
structure Tick where
  time : ℚ
  x : ℚ
  y : ℚ
deriving DecidableEq

/-- Iterated `aoiStep` over a sequence of ticks, for reasoning about a
single AOI across frames. -/
def runAOI (a : AOI) : List Tick → AOI
  | [] => a
  | t :: ts => runAOI (aoiStep t.time t.x t.y a) ts

/-- The loop body over `self.aoi_list` of one tick (main_app.py, lines
1100-1120), also accumulating `gaze_aoi_name` (line 1113: the name of the
last AOI in iteration order that contains the point). -/
def aoiScan (now x y : ℚ) : List AOI → String → List AOI × String
  | [], nm => ([], nm)
  | a :: rest, nm =>
      let a2 := aoiStep now x y a
      let nm2 := if a.rect.containsPt x y then a.name else nm
      let r := aoiScan now x y rest nm2
      (a2 :: r.1, r.2)

/-- The per-AOI part of `GazeApp.reset_counts` (main_app.py, lines
620-623): zero the statistics and clear the entry time.  Note that
`is_gaze_inside` is not touched. -/
def resetAOI (a : AOI) : AOI :=
  { a with hit_count := 0, dwell_time := 0, entry_time := none }

/-- The `GazeApp.reset_counts` method (main_app.py, lines 619-625) over the AOI
list (the trailing `update_statistics` call only redraws labels). -/
def reset_counts (l : List AOI) : List AOI :=
  l.map resetAOI

/-! ## The per-tick pipeline (main_app.py, `GazeApp.update_frame`) -/

/-- One entry of the list returned by `flann.knnMatch(..., k=2)` as used
by the ratio test (main_app.py, lines 1032-1036): the query/train indices
and distances of the best candidate, the distance of the second-best
candidate, and whether two candidates were returned (`len(m_n) == 2`). -/
structure MatchPair where
  queryIdx : Nat
  trainIdx : Nat
  dist1 : ℚ
  dist2 : ℚ
  pairFull : Bool
deriving DecidableEq

/-- Lowe's ratio test (main_app.py, lines 1031-1036): keep a match only
when two candidates exist and the best distance is below `0.75` times the
second-best distance. -/
def ratioTest (ms : List MatchPair) : List MatchPair :=
  ms.filter fun m => m.pairFull && decide (m.dist1 < 3 / 4 * m.dist2)

/-- Python's `int()` truncation toward zero, used when appending to
`gaze_history` (main_app.py, line 1054). -/
def truncInt (q : ℚ) : Int :=
  Int.tdiv q.num (q.den : Int)

/-- The `deque(maxlen=m)` behaviour of `self.gaze_history`: appending to
a full deque evicts the oldest entry; the explicit
`if len > max: popleft()` at lines 1055-1056 follows. -/
def dequePush (m : Nat) (l : List (Int × Int)) (p : Int × Int) :
    List (Int × Int) :=
  let h1 := (l ++ [p]).drop ((l ++ [p]).length - m)
  if h1.length > m then h1.tail else h1

/-- One recorded row (main_app.py, lines 1210-1219). -/
structure RecordRow where
  frameIdx : Nat
  picNum : Int
  gazeX : ℚ
  gazeY : ℚ
  aoiName : String
  scoreRight : ℚ
  scoreLeft : ℚ
  systemTime : Option String
deriving DecidableEq

/-- External OpenCV computations, modelled as unconstrained functions:
the engine's control flow is verified for every possible behaviour of
these calls.  The undistortion maps in use always correspond to the
current frame shape (lines 996-999 recompute them on shape change), so
the map-dependent operations take the shape as a parameter. -/
structure Env where
  frameShape : Nat → Nat × Nat
  undistortCropGray : Nat × Nat → Nat → Nat
  undistortGaze : Nat × Nat → ℚ × ℚ → ℚ × ℚ
  detect : Nat → List (ℚ × ℚ) × List Nat
  knnMatch : List Nat → List Nat → List MatchPair
  findHomography : List (ℚ × ℚ) → List (ℚ × ℚ) → Option (ℚ × ℚ → ℚ × ℚ)
  parseTime : Option String → ℚ

/-- The immutable per-session reference model set up by `apply_settings`
(config.py: `ref_keypoints`, `ref_descriptors`). -/
structure RefConfig where
  ref_keypoints : List (ℚ × ℚ)
  ref_descriptors : List Nat

/-- The processor-owned mutable state touched by `GazeApp.update_frame`.
Display-only attributes (rendered image, plot buffers, fps text) are not
modelled. -/
structure AppState where
  is_configured : Bool
  channel : Channel
  previous_frame_shape : Option (Nat × Nat)
  max_history : Nat
  gaze_history : List (Int × Int)
  aoi_list : List AOI
  current_system_time : ℚ
  is_recording : Bool
  frame_counter : Nat
  recorded_data : List RecordRow

/-- Observables of one tick: the homography produced by
`cv2.findHomography` when that call is reached, and the projected gaze
point when one is computed. -/
structure TickOut where
  homography : Option (ℚ × ℚ → ℚ × ℚ)
  projected : Option (ℚ × ℚ)

/-- The empty tick observation (no homography, no projection). -/
def noTick : TickOut := { homography := none, projected := none }

/-- The ratio-test-accepted matches the pipeline computes for the frame
image `img` (main_app.py, lines 1024-1036): detect descriptors on the
undistorted, cropped, grayscale frame and match the reference descriptors
against them. -/
def goodMatchesFor (env : Env) (cfg : RefConfig) (img : Nat) :
    List MatchPair :=
  ratioTest (env.knnMatch cfg.ref_descriptors
    (env.detect (env.undistortCropGray (env.frameShape img) img)).2)

/-- Lines 996-999 of main_app.py: when the incoming frame's shape
differs from `previous_frame_shape`, the undistortion maps are
recomputed and `previous_frame_shape` is updated; nothing else is
touched. -/
def withShape (s : AppState) (shape : Nat × Nat) : AppState :=
  if s.previous_frame_shape ≠ some shape then
    { s with previous_frame_shape := some shape } else s

/-- The body of `GazeApp.update_frame` after a frame has been obtained
from the mailbox (main_app.py, lines 995-1226). -/
def processFrame (env : Env) (cfg : RefConfig) (s0 : AppState)
    (p : FramePayload) : AppState × TickOut :=
  -- lines 996-999: recompute the undistortion map on shape change
  let shape := env.frameShape p.frame
  let s := withShape s0 shape
  -- lines 1001-1004: scale the gaze to the frame size.  No validity or
  -- range check is applied to the incoming normalized gaze.
  let gx := p.gaze_x * ((shape.2 : ℚ))
  let gy := p.gaze_y * ((shape.1 : ℚ))
  -- lines 1006-1021: undistort/crop the frame and the gaze point
  let gud := env.undistortGaze shape (gx, gy)
  let gray := env.undistortCropGray shape p.frame
  -- line 1024: ORB detection on the processed frame
  let det := env.detect gray
  let frame_keypoints := det.1
  let frame_descriptors := det.2
  if frame_descriptors.length > 0 then
    -- lines 1028-1036: knnMatch plus ratio test
    let good_matches := ratioTest (env.knnMatch cfg.ref_descriptors
      frame_descriptors)
    if good_matches.length > 10 then
      -- lines 1039-1045: correspondence lists and homography estimation
      let src_pts := good_matches.map fun m =>
        cfg.ref_keypoints.getD m.queryIdx (0, 0)
      let dst_pts := good_matches.map fun m =>
        frame_keypoints.getD m.trainIdx (0, 0)
      match env.findHomography dst_pts src_pts with
      | some M =>
          -- lines 1048-1056: project the gaze and extend the history
          let refp := M gud
          let hist := dequePush s.max_history s.gaze_history
            (truncInt refp.1, truncInt refp.2)
          -- line 1097: parse the frame's system time
          let now := env.parseTime p.system_time
          -- lines 1100-1120: AOI state machine over the list
          let scan := aoiScan now refp.1 refp.2 s.aoi_list ""
          -- lines 1208-1220: append a row when recording
          let fc := if s.is_recording then s.frame_counter + 1
            else s.frame_counter
          let row : RecordRow :=
            { frameIdx := fc
              picNum := p.frame_num
              gazeX := refp.1
              gazeY := refp.2
              aoiName := scan.2
              scoreRight := p.score_right
              scoreLeft := p.score_left
              systemTime := p.system_time }
          let rd := if s.is_recording then s.recorded_data ++ [row]
            else s.recorded_data
          ({ s with gaze_history := hist
                    current_system_time := now
                    aoi_list := scan.1
                    frame_counter := fc
                    recorded_data := rd },
           { homography := some M, projected := some refp })
      | none =>
          -- lines 1221-1223: homography estimation failed
          (s, noTick)
    else
      -- lines 1224-1226: not enough good matches
      (s, noTick)
  else
    -- line 1026: no descriptors in the frame
    (s, noTick)

/-- The `GazeApp.update_frame` method (main_app.py, lines 975-1226).  For a normal
tick the availability event gates entry and is cleared; a preview-only
redraw (`draw_aoi_preview=True`) enters unconditionally and leaves the
event untouched (lines 979-981). -/
def update_frame (env : Env) (cfg : RefConfig) (draw_aoi_preview : Bool)
    (s : AppState) : AppState × TickOut :=
  if s.is_configured = false then (s, noTick)
  else if s.channel.available || draw_aoi_preview then
    let s1 := if draw_aoi_preview then s
      else { s with channel := { s.channel with available := false } }
    match s1.channel.slot with
    | none => (s1, noTick)
    | some p => processFrame env cfg s1 p
  else (s, noTick)

/-! ## Session configuration (`GazeApp.apply_settings`) -/

/-- The result of a successful `np.array(...)` conversion: its shape and
(flattened) contents. -/
structure NpVal where
  shape : List Nat
  data : List ℚ
deriving DecidableEq

/-- The global configuration written by `apply_settings` (config.py
module globals).  `engine_ready` stands for the jointly-initialized ORB
detector, reference keypoints/descriptors, FLANN matcher and undistortion
maps, which are only written in the all-validations-passed tail of
`apply_settings`. -/
structure SessionConfig where
  ref_image : Option Nat
  camera_matrix : Option NpVal
  dist_coeffs : Option NpVal
  engine_ready : Bool
deriving DecidableEq

/-- The user-provided inputs of one `apply_settings` call, together with
the outcome of the external conversions: `imread_result` is what
`cv2.imread(image_path)` returns (None on unreadable files), and the
`parse` fields are the outcome of `ast.literal_eval` plus `np.array`
(`none` when either raises, before any assignment happens). -/
structure SettingsInput where
  image_path : String
  imread_result : Option Nat
  camera_matrix_parse : Option NpVal
  dist_coeffs_parse : Option NpVal
  current_user : String
deriving DecidableEq

/-- The `GazeApp.apply_settings` method (main_app.py, lines 634-713), returning the
updated configuration and whether the engine activated (receiver thread
and processing timer started, `is_configured` set).  Mirrors the source
order: `config.ref_image` is assigned the raw `imread` result before the
`None` check, and `config.camera_matrix` / `config.dist_coeffs` are
assigned before their shape checks raise. -/
def apply_settings (inp : SettingsInput) (c : SessionConfig) :
    SessionConfig × Bool :=
  -- lines 636-639: empty path rejected before anything is written
  if inp.image_path = "" then (c, false)
  else
    -- lines 641-644: the imread result is stored, then checked
    let c1 : SessionConfig := { c with ref_image := inp.imread_result }
    match inp.imread_result with
    | none => (c1, false)
    | some _ =>
      -- lines 646-655: camera matrix: assigned, then shape-checked
      match inp.camera_matrix_parse with
      | none => (c1, false)
      | some cam =>
        let c2 : SessionConfig := { c1 with camera_matrix := some cam }
        if cam.shape ≠ [3, 3] then (c2, false)
        else
          -- lines 657-666: distortion vector: assigned, then checked
          match inp.dist_coeffs_parse with
          | none => (c2, false)
          | some dc =>
            let c3 : SessionConfig := { c2 with dist_coeffs := some dc }
            if dc.shape.head? ≠ some 5 then (c3, false)
            -- lines 668-670: user name required
            else if inp.current_user = "" then (c3, false)
            -- lines 672-713: detector, matcher, maps, thread, timer
            else ({ c3 with engine_ready := true }, true)

/-- Validity of a settings input, as checked by `apply_settings`: a
non-empty path, a readable image, a parsed 3×3 camera matrix, a parsed
5-element distortion vector, and a non-empty user name. -/
def validSettings (inp : SettingsInput) : Bool :=
  decide (inp.image_path ≠ "") && inp.imread_result.isSome &&
  (match inp.camera_matrix_parse with
   | none => false
   | some cam => decide (cam.shape = [3, 3])) &&
  (match inp.dist_coeffs_parse with
   | none => false
   | some dc => decide (dc.shape.head? = some 5)) &&
  decide (inp.current_user ≠ "")

/-! ## Derived views of the pipeline -/

/-- The source-point list of lines 1039-1040: reference keypoints of the
accepted matches. -/
def srcPtsFor (env : Env) (cfg : RefConfig) (img : Nat) : List (ℚ × ℚ) :=
  (goodMatchesFor env cfg img).map fun m =>
    cfg.ref_keypoints.getD m.queryIdx (0, 0)

/-- The destination-point list of lines 1041-1042: frame keypoints of
the accepted matches. -/
def dstPtsFor (env : Env) (cfg : RefConfig) (img : Nat) : List (ℚ × ℚ) :=
  (goodMatchesFor env cfg img).map fun m =>
    (env.detect (env.undistortCropGray (env.frameShape img) img)).1.getD
      m.trainIdx (0, 0)

/-- The scaled, undistorted, crop-adjusted gaze point of a payload
(lines 1001-1018). -/
def undistortedGaze (env : Env) (p : FramePayload) : ℚ × ℚ :=
  env.undistortGaze (env.frameShape p.frame)
    (p.gaze_x * (((env.frameShape p.frame).2 : ℚ)),
     p.gaze_y * (((env.frameShape p.frame).1 : ℚ)))

/-- The times of a tick sequence are non-decreasing and bounded below by
`t`. -/
def chronological : ℚ → List Tick → Prop
  | _, [] => True
  | t, tk :: rest => t ≤ tk.time ∧ chronological tk.time rest

/-- Any entry time stored in the AOI is at most `t`. -/
def entryLE (a : AOI) (t : ℚ) : Prop :=
  ∀ e, a.entry_time = some e → e ≤ t

/-! ## Concrete instances used by witnesses and counterexamples -/

/-- A two-candidate match that passes the ratio test
(`1 < 0.75 × 2`). -/
def goodPair : MatchPair :=
  { queryIdx := 0, trainIdx := 0, dist1 := 1, dist2 := 2, pairFull := true }

/-- An environment whose frame is 100×100, detection finds one
keypoint/descriptor, matching yields eleven ratio-test-passing pairs,
homography estimation returns the identity map, the undistorted gaze is
the constant point (200, 200), and every system time parses to 7. -/
def envC : Env :=
  { frameShape := fun _ => (100, 100)
    undistortCropGray := fun _ img => img
    undistortGaze := fun _ _ => (200, 200)
    detect := fun _ => ([(0, 0)], [0])
    knnMatch := fun _ _ =>
      [goodPair, goodPair, goodPair, goodPair, goodPair, goodPair,
       goodPair, goodPair, goodPair, goodPair, goodPair]
    findHomography := fun _ _ => some (fun q => q)
    parseTime := fun _ => 7 }

/-- The same environment with a matcher that returns no candidate
pairs. -/
def envFew : Env :=
  { envC with knnMatch := fun _ _ => [] }

/-- A one-keypoint reference model. -/
def cfgC : RefConfig :=
  { ref_keypoints := [(0, 0)], ref_descriptors := [0] }

/-- A 300×300 AOI at the reference origin. -/
def aoiC : AOI :=
  { rect := ⟨0, 0, 300, 300⟩, name := "panel", hit_count := 0
    dwell_time := 0, entry_time := none, is_gaze_inside := false }

/-- A payload whose normalized gaze (2, 2) is far outside [0,1]×[0,1]. -/
def payloadC : FramePayload :=
  { frame := 1, gaze_x := 2, gaze_y := 2, frame_num := 5
    score_right := 0, score_left := 0, system_time := none }

/-- A configured, recording state with one AOI and `payloadC` available
in the mailbox. -/
def stateC : AppState :=
  { is_configured := true
    channel := { slot := some payloadC, available := true }
    previous_frame_shape := some (100, 100)
    max_history := 100
    gaze_history := []
    aoi_list := [aoiC]
    current_system_time := 0
    is_recording := true
    frame_counter := 0
    recorded_data := [] }

/-- The same state after its frame has been consumed: the slot still
holds the payload but the availability event is clear. -/
def stateConsumed : AppState :=
  { stateC with channel := { slot := some payloadC, available := false } }

/-- A message lacking only the optional `score_right` field. -/
def msgNoRight : Message :=
  { frame_num := 9, gaze_x := 1 / 2, gaze_y := 1 / 2, image := 1
    score_right := none, score_left := some 3
    system_time := some "2024:05:01:12:30:15:250" }

/-- A message lacking only the optional `score_left` field. -/
def msgNoLeft : Message :=
  { frame_num := 10, gaze_x := 1 / 2, gaze_y := 1 / 2, image := 1
    score_right := some 4, score_left := none
    system_time := some "2024:05:01:12:30:15:250" }

/-- A previously valid session configuration. -/
def sessionC : SessionConfig :=
  { ref_image := some 1
    camera_matrix := some ⟨[3, 3], [600, 0, 320, 0, 600, 240, 0, 0, 1]⟩
    dist_coeffs := some ⟨[5], [0, 0, 0, 0, 0]⟩
    engine_ready := false }

/-- A settings input with a readable image but a 2×2 camera matrix. -/
def badShapeInput : SettingsInput :=
  { image_path := "ref.png"
    imread_result := some 2
    camera_matrix_parse := some ⟨[2, 2], [1, 2, 3, 4]⟩
    dist_coeffs_parse := some ⟨[5], [0, 0, 0, 0, 0]⟩
    current_user := "alice" }

/-! ## Helper lemmas on the shape update -/

/-- The shape update only touches `previous_frame_shape`. -/
@[simp] theorem withShape_is_configured (s : AppState) (sh : Nat × Nat) :
    (withShape s sh).is_configured = s.is_configured := by
  unfold withShape
  split <;> rfl

/-- The shape update keeps the mailbox untouched. -/
@[simp] theorem withShape_channel (s : AppState) (sh : Nat × Nat) :
    (withShape s sh).channel = s.channel := by
  unfold withShape
  split <;> rfl

/-- The shape update keeps the history capacity untouched. -/
@[simp] theorem withShape_max_history (s : AppState) (sh : Nat × Nat) :
    (withShape s sh).max_history = s.max_history := by
  unfold withShape
  split <;> rfl

/-- The shape update keeps the gaze history untouched. -/
@[simp] theorem withShape_gaze_history (s : AppState) (sh : Nat × Nat) :
    (withShape s sh).gaze_history = s.gaze_history := by
  unfold withShape
  split <;> rfl

/-- The shape update keeps the AOI list untouched. -/
@[simp] theorem withShape_aoi_list (s : AppState) (sh : Nat × Nat) :
    (withShape s sh).aoi_list = s.aoi_list := by
  unfold withShape
  split <;> rfl

/-- The shape update keeps the held system time untouched. -/
@[simp] theorem withShape_current_system_time (s : AppState)
    (sh : Nat × Nat) :
    (withShape s sh).current_system_time = s.current_system_time := by
  unfold withShape
  split <;> rfl

/-- The shape update keeps the recording flag untouched. -/
@[simp] theorem withShape_is_recording (s : AppState) (sh : Nat × Nat) :
    (withShape s sh).is_recording = s.is_recording := by
  unfold withShape
  split <;> rfl

/-- The shape update keeps the frame counter untouched. -/
@[simp] theorem withShape_frame_counter (s : AppState) (sh : Nat × Nat) :
    (withShape s sh).frame_counter = s.frame_counter := by
  unfold withShape
  split <;> rfl

/-- The shape update keeps the recorded rows untouched. -/
@[simp] theorem withShape_recorded_data (s : AppState) (sh : Nat × Nat) :
    (withShape s sh).recorded_data = s.recorded_data := by
  unfold withShape
  split <;> rfl

/-! ## Helper lemmas on the AOI automaton -/

/-- A tick inside the rectangle while already marked inside changes
nothing. -/
theorem aoiStep_stay_inside (t x y : ℚ) (a : AOI)
    (h1 : a.is_gaze_inside = true) (h2 : a.rect.containsPt x y = true) :
    aoiStep t x y a = a := by
  cases a with
  | mk r n hc dw et ig =>
    simp only [aoiStep] at *
    simp_all

/-- A tick outside the rectangle while already marked outside changes
nothing. -/
theorem aoiStep_stay_outside (t x y : ℚ) (a : AOI)
    (h1 : a.is_gaze_inside = false) (h2 : a.rect.containsPt x y = false) :
    aoiStep t x y a = a := by
  cases a with
  | mk r n hc dw et ig =>
    simp only [aoiStep] at *
    simp_all

/-- An Outside→Inside transition bumps the hit count and records the
entry time. -/
theorem aoiStep_enter (t x y : ℚ) (a : AOI)
    (h1 : a.is_gaze_inside = false) (h2 : a.rect.containsPt x y = true) :
    aoiStep t x y a = { a with hit_count := a.hit_count + 1
                               entry_time := some t
                               is_gaze_inside := true } := by
  simp only [aoiStep]
  simp [h1, h2]

/-- An Inside→Outside transition with a recorded entry time realizes the
dwell. -/
theorem aoiStep_exit (t x y e : ℚ) (a : AOI)
    (h1 : a.is_gaze_inside = true) (h2 : a.rect.containsPt x y = false)
    (h3 : a.entry_time = some e) :
    aoiStep t x y a = { a with dwell_time := a.dwell_time + (t - e)
                               entry_time := none
                               is_gaze_inside := false } := by
  simp only [aoiStep]
  simp [h1, h2, h3]

/-- An Inside→Outside transition with no recorded entry time only clears
the inside flag. -/
theorem aoiStep_exit_no_entry (t x y : ℚ) (a : AOI)
    (h1 : a.is_gaze_inside = true) (h2 : a.rect.containsPt x y = false)
    (h3 : a.entry_time = none) :
    aoiStep t x y a = { a with is_gaze_inside := false } := by
  simp only [aoiStep]
  simp [h1, h2, h3]

/-- Running a tick sequence splits over append. -/
theorem runAOI_append (a : AOI) (l1 l2 : List Tick) :
    runAOI a (l1 ++ l2) = runAOI (runAOI a l1) l2 := by
  induction l1 generalizing a with
  | nil => rfl
  | cons t ts ih =>
    simp only [List.cons_append, runAOI]
    exact ih _

/-- A run of ticks all inside the rectangle, starting inside, changes
nothing. -/
theorem runAOI_stay_inside (a : AOI) (l : List Tick)
    (h1 : a.is_gaze_inside = true)
    (hall : ∀ m ∈ l, a.rect.containsPt m.x m.y = true) :
    runAOI a l = a := by
  induction l with
  | nil => rfl
  | cons t ts ih =>
    have ht : a.rect.containsPt t.x t.y = true := hall t (by simp)
    have hstep : aoiStep t.time t.x t.y a = a :=
      aoiStep_stay_inside t.time t.x t.y a h1 ht
    simp only [runAOI, hstep]
    exact ih fun m hm => hall m (by simp [hm])

/-! ## Claim theorems -/

/-- C1: the mailbox is latest-wins — after two consecutive publishes
with no intervening take, exactly one frame is available (the second),
the next take yields the second message's data, and a further take with
no intervening publish reports nothing available. -/
theorem frameChannel_latest_wins (ch : Channel) (m1 m2 : Message) :
    (publishMsg (publishMsg ch m1) m2).available = true ∧
    (publishMsg (publishMsg ch m1) m2).slot = some (payloadOfMessage m2) ∧
    (tryTake (publishMsg (publishMsg ch m1) m2)).1 =
      some (payloadOfMessage m2) ∧
    (tryTake (tryTake (publishMsg (publishMsg ch m1) m2)).2).1 = none := by
  exact ⟨rfl, rfl, rfl, rfl⟩

/-- C2: against a single AOI starting Outside, a tick sequence
Outside, then Inside for one or more consecutive ticks, then Outside,
bumps `hit_count` by exactly 1 and grows `dwell_time` by exactly the
exit tick's time minus the entry tick's time, independent of the number
of intermediate Inside ticks. -/
theorem aoi_hit_dwell_single_visit (a : AOI) (t0 tIn tOut : ℚ)
    (p0 pIn pOut : ℚ × ℚ) (mids : List Tick)
    (hstart : a.is_gaze_inside = false)
    (h0 : a.rect.containsPt p0.1 p0.2 = false)
    (hIn : a.rect.containsPt pIn.1 pIn.2 = true)
    (hmids : ∀ m ∈ mids, a.rect.containsPt m.x m.y = true)
    (hOut : a.rect.containsPt pOut.1 pOut.2 = false) :
    (runAOI a (⟨t0, p0.1, p0.2⟩ :: ⟨tIn, pIn.1, pIn.2⟩ ::
      (mids ++ [⟨tOut, pOut.1, pOut.2⟩]))).hit_count = a.hit_count + 1 ∧
    (runAOI a (⟨t0, p0.1, p0.2⟩ :: ⟨tIn, pIn.1, pIn.2⟩ ::
      (mids ++ [⟨tOut, pOut.1, pOut.2⟩]))).dwell_time =
      a.dwell_time + (tOut - tIn) := by
  have e0 : aoiStep t0 p0.1 p0.2 a = a :=
    aoiStep_stay_outside t0 p0.1 p0.2 a hstart h0
  have e1 : aoiStep tIn pIn.1 pIn.2 a =
      { a with hit_count := a.hit_count + 1
               entry_time := some tIn
               is_gaze_inside := true } :=
    aoiStep_enter tIn pIn.1 pIn.2 a hstart hIn
  have e2 : runAOI { a with hit_count := a.hit_count + 1
                            entry_time := some tIn
                            is_gaze_inside := true } mids =
      { a with hit_count := a.hit_count + 1
               entry_time := some tIn
               is_gaze_inside := true } :=
    runAOI_stay_inside _ mids rfl hmids
  have e3 : aoiStep tOut pOut.1 pOut.2
      { a with hit_count := a.hit_count + 1
               entry_time := some tIn
               is_gaze_inside := true } =
      { a with hit_count := a.hit_count + 1
               dwell_time := a.dwell_time + (tOut - tIn)
               entry_time := none
               is_gaze_inside := false } :=
    aoiStep_exit tOut pOut.1 pOut.2 tIn _ rfl hOut rfl
  simp only [runAOI, e0, e1, runAOI_append, e2, e3]
  simp

/-- A concrete instantiation of `aoi_hit_dwell_single_visit`. -/
theorem aoi_hit_dwell_single_visit_witness :
    (runAOI ⟨⟨0, 0, 10, 10⟩, "box", 0, 0, none, false⟩
      (⟨0, (50 : ℚ), 50⟩ :: ⟨1, (5 : ℚ), 5⟩ ::
        ([⟨2, 6, 6⟩] ++ [⟨4, (50 : ℚ), 50⟩]))).hit_count = 0 + 1 ∧
    (runAOI ⟨⟨0, 0, 10, 10⟩, "box", 0, 0, none, false⟩
      (⟨0, (50 : ℚ), 50⟩ :: ⟨1, (5 : ℚ), 5⟩ ::
        ([⟨2, 6, 6⟩] ++ [⟨4, (50 : ℚ), 50⟩]))).dwell_time = 0 + (4 - 1) :=
  aoi_hit_dwell_single_visit ⟨⟨0, 0, 10, 10⟩, "box", 0, 0, none, false⟩
    0 1 4 (50, 50) (5, 5) (50, 50) [⟨2, 6, 6⟩] rfl
    (by norm_num [Rect.containsPt])
    (by norm_num [Rect.containsPt])
    (by
      intro m hm
      simp only [List.mem_singleton] at hm
      subst hm
      norm_num [Rect.containsPt])
    (by norm_num [Rect.containsPt])

/-- C7: `reset_counts` zeroes `hit_count` and `dwell_time` and clears
`entry_time` for every AOI in the list, and leaves every AOI's `rect`
and `name` unchanged. -/
theorem reset_counts_fields (l : List AOI) (i : Nat) (h : i < l.length) :
    (reset_counts l).length = l.length ∧
    (reset_counts l)[i]?.map AOI.hit_count = some 0 ∧
    (reset_counts l)[i]?.map AOI.dwell_time = some 0 ∧
    (reset_counts l)[i]?.map AOI.entry_time = some none ∧
    (reset_counts l)[i]?.map AOI.rect = l[i]?.map AOI.rect ∧
    (reset_counts l)[i]?.map AOI.name = l[i]?.map AOI.name := by
  have hg : l[i]? = some l[i] := List.getElem?_eq_getElem h
  refine ⟨by simp [reset_counts], ?_, ?_, ?_, ?_, ?_⟩ <;>
    simp [reset_counts, hg, resetAOI]

/-- A concrete instantiation of `reset_counts_fields`. -/
theorem reset_counts_fields_witness :
    (reset_counts [⟨⟨0, 0, 10, 10⟩, "box", 3, 5, some 2, true⟩]).length =
      [(⟨⟨0, 0, 10, 10⟩, "box", 3, 5, some 2, true⟩ : AOI)].length ∧
    (reset_counts [⟨⟨0, 0, 10, 10⟩, "box", 3, 5, some 2, true⟩])[0]?.map
      AOI.hit_count = some 0 ∧
    (reset_counts [⟨⟨0, 0, 10, 10⟩, "box", 3, 5, some 2, true⟩])[0]?.map
      AOI.dwell_time = some 0 ∧
    (reset_counts [⟨⟨0, 0, 10, 10⟩, "box", 3, 5, some 2, true⟩])[0]?.map
      AOI.entry_time = some none ∧
    (reset_counts [⟨⟨0, 0, 10, 10⟩, "box", 3, 5, some 2, true⟩])[0]?.map
      AOI.rect =
      [(⟨⟨0, 0, 10, 10⟩, "box", 3, 5, some 2, true⟩ : AOI)][0]?.map
        AOI.rect ∧
    (reset_counts [⟨⟨0, 0, 10, 10⟩, "box", 3, 5, some 2, true⟩])[0]?.map
      AOI.name =
      [(⟨⟨0, 0, 10, 10⟩, "box", 3, 5, some 2, true⟩ : AOI)][0]?.map
        AOI.name :=
  reset_counts_fields [⟨⟨0, 0, 10, 10⟩, "box", 3, 5, some 2, true⟩] 0
    (by simp)

/-- C9: `reset_counts` leaves `is_gaze_inside` unchanged for every AOI.
Consequently, for an AOI whose gaze is inside at the moment of reset:
continued presence inside adds no new hit; the next exit transition adds
nothing to `dwell_time` (the entry time was cleared); and dwell accrues
again only after a full exit and re-entry, where it restarts from the
re-entry time. -/
theorem reset_keeps_gaze_inside (a : AOI) (t1 t2 t3 t4 xi yi xo yo : ℚ)
    (hin : a.is_gaze_inside = true)
    (hci : a.rect.containsPt xi yi = true)
    (hco : a.rect.containsPt xo yo = false) :
    (∀ l : List AOI,
      (reset_counts l).map AOI.is_gaze_inside = l.map AOI.is_gaze_inside) ∧
    (aoiStep t1 xi yi (resetAOI a)).hit_count = 0 ∧
    (runAOI (resetAOI a) [⟨t1, xi, yi⟩, ⟨t2, xo, yo⟩]).dwell_time = 0 ∧
    (runAOI (resetAOI a)
      [⟨t1, xi, yi⟩, ⟨t2, xo, yo⟩, ⟨t3, xi, yi⟩, ⟨t4, xo, yo⟩]).dwell_time =
      t4 - t3 ∧
    (runAOI (resetAOI a)
      [⟨t1, xi, yi⟩, ⟨t2, xo, yo⟩, ⟨t3, xi, yi⟩, ⟨t4, xo, yo⟩]).hit_count =
      1 := by
  have hri : (resetAOI a).is_gaze_inside = true := hin
  have hrc : (resetAOI a).rect = a.rect := rfl
  have e1 : aoiStep t1 xi yi (resetAOI a) = resetAOI a :=
    aoiStep_stay_inside t1 xi yi (resetAOI a) hri (by rw [hrc]; exact hci)
  have e2 : aoiStep t2 xo yo (resetAOI a) =
      { resetAOI a with is_gaze_inside := false } :=
    aoiStep_exit_no_entry t2 xo yo (resetAOI a) hri (by rw [hrc]; exact hco)
      rfl
  have e3 : aoiStep t3 xi yi { resetAOI a with is_gaze_inside := false } =
      { resetAOI a with hit_count := 1
                        entry_time := some t3
                        is_gaze_inside := true } := by
    rw [aoiStep_enter t3 xi yi _ rfl (by simpa [resetAOI] using hci)]
    simp [resetAOI]
  have e4 : aoiStep t4 xo yo
      { resetAOI a with hit_count := 1
                        entry_time := some t3
                        is_gaze_inside := true } =
      { resetAOI a with hit_count := 1
                        dwell_time := 0 + (t4 - t3)
                        entry_time := none
                        is_gaze_inside := false } := by
    rw [aoiStep_exit t4 xo yo t3 _ rfl (by simpa [resetAOI] using hco) rfl]
    simp [resetAOI]
  refine ⟨?_, ?_, ?_, ?_, ?_⟩
  · intro l
    simp [reset_counts, resetAOI]
  · rw [e1]
    rfl
  · simp only [runAOI, e1, e2]
    rfl
  · simp only [runAOI, e1, e2, e3, e4]
    simp
  · simp only [runAOI, e1, e2, e3, e4]

/-- A concrete instantiation of `reset_keeps_gaze_inside`. -/
theorem reset_keeps_gaze_inside_witness :
    (∀ l : List AOI,
      (reset_counts l).map AOI.is_gaze_inside = l.map AOI.is_gaze_inside) ∧
    (aoiStep 1 5 5
      (resetAOI ⟨⟨0, 0, 10, 10⟩, "box", 3, 9, some 0, true⟩)).hit_count =
      0 ∧
    (runAOI (resetAOI ⟨⟨0, 0, 10, 10⟩, "box", 3, 9, some 0, true⟩)
      [⟨1, 5, 5⟩, ⟨2, 50, 50⟩]).dwell_time = 0 ∧
    (runAOI (resetAOI ⟨⟨0, 0, 10, 10⟩, "box", 3, 9, some 0, true⟩)
      [⟨1, 5, 5⟩, ⟨2, 50, 50⟩, ⟨3, 5, 5⟩, ⟨7, 50, 50⟩]).dwell_time =
      7 - 3 ∧
    (runAOI (resetAOI ⟨⟨0, 0, 10, 10⟩, "box", 3, 9, some 0, true⟩)
      [⟨1, 5, 5⟩, ⟨2, 50, 50⟩, ⟨3, 5, 5⟩, ⟨7, 50, 50⟩]).hit_count = 1 :=
  reset_keeps_gaze_inside ⟨⟨0, 0, 10, 10⟩, "box", 3, 9, some 0, true⟩
    1 2 3 7 5 5 50 50 rfl
    (by norm_num [Rect.containsPt])
    (by norm_num [Rect.containsPt])

/-! ## Dwell-time monotonicity (C6) -/

/-- The bound in `entryLE` is upward closed. -/
theorem entryLE_mono {a : AOI} {t u : ℚ} (h : entryLE a t) (htu : t ≤ u) :
    entryLE a u :=
  fun e he => le_trans (h e he) htu

/-- One step at time `t` never shrinks the dwell when every stored entry
time is at most `t`, and every entry time it stores is at most `t`. -/
theorem aoiStep_dwell_le (t x y : ℚ) (a : AOI) (h : entryLE a t) :
    a.dwell_time ≤ (aoiStep t x y a).dwell_time ∧
    entryLE (aoiStep t x y a) t := by
  simp only [aoiStep]
  by_cases hc : a.rect.containsPt x y = true
  · simp only [hc, if_true]
    by_cases hi : a.is_gaze_inside = true
    · simp only [hi, if_true]
      exact ⟨le_refl _, h⟩
    · simp only [hi, if_false, Bool.not_eq_true] at *
      simp only [hi, Bool.false_eq_true, if_false]
      refine ⟨le_refl _, ?_⟩
      intro e he
      simp only at he
      rw [Option.some_inj] at he
      exact le_of_eq he.symm
  · simp only [Bool.not_eq_true] at hc
    simp only [hc, Bool.false_eq_true, if_false]
    by_cases hi : a.is_gaze_inside = true
    · simp only [hi, if_true]
      cases he : a.entry_time with
      | none =>
        exact ⟨le_refl _, fun e h2 => by simp at h2⟩
      | some e =>
        refine ⟨?_, fun e2 h2 => by simp at h2⟩
        have : e ≤ t := h e he
        simp only
        nlinarith
    · simp only [hi, Bool.false_eq_true, if_false]
      exact ⟨le_refl _, h⟩

/-- C6 (amended): the cumulative `dwell_time` never decreases over any
tick sequence whose parsed system times are chronological (non-decreasing
and no earlier than every entry time already stored).  The unamended
claim — monotonicity also under non-monotonic times — is refuted by
`dwell_time_decreases_cex`. -/
theorem dwell_time_monotone_of_chronological (a : AOI) (t0 : ℚ)
    (ticks : List Tick) (h0 : entryLE a t0)
    (hm : chronological t0 ticks) :
    a.dwell_time ≤ (runAOI a ticks).dwell_time := by
  induction ticks generalizing a t0 with
  | nil => exact le_refl _
  | cons tk rest ih =>
    obtain ⟨hle, hrest⟩ := hm
    have h1 := aoiStep_dwell_le tk.time tk.x tk.y a (entryLE_mono h0 hle)
    calc a.dwell_time ≤ (aoiStep tk.time tk.x tk.y a).dwell_time := h1.1
      _ ≤ (runAOI (aoiStep tk.time tk.x tk.y a) rest).dwell_time :=
        ih _ tk.time h1.2 hrest
      _ = (runAOI a (tk :: rest)).dwell_time := rfl

/-- A concrete instantiation of `dwell_time_monotone_of_chronological`. -/
theorem dwell_time_monotone_of_chronological_witness :
    (⟨⟨0, 0, 10, 10⟩, "box", 0, 0, none, false⟩ : AOI).dwell_time ≤
      (runAOI ⟨⟨0, 0, 10, 10⟩, "box", 0, 0, none, false⟩
        [⟨1, 5, 5⟩, ⟨2, 50, 50⟩]).dwell_time :=
  dwell_time_monotone_of_chronological
    ⟨⟨0, 0, 10, 10⟩, "box", 0, 0, none, false⟩ 0 [⟨1, 5, 5⟩, ⟨2, 50, 50⟩]
    (fun e he => by simp at he)
    (by norm_num [chronological])

/-- C6 is refuted as stated: with non-monotonic parsed system times
(entry at time 10, exit at time 5) the cumulative dwell time decreases
(from 0 to -5). -/
theorem dwell_time_decreases_cex :
    (runAOI ⟨⟨0, 0, 10, 10⟩, "box", 0, 0, none, false⟩
      [⟨10, 1, 1⟩, ⟨5, 50, 50⟩]).dwell_time <
      (⟨⟨0, 0, 10, 10⟩, "box", 0, 0, none, false⟩ : AOI).dwell_time := by
  norm_num [runAOI, aoiStep, Rect.containsPt]

/-! ## Registration gating (C3) and recording (C10) -/

/-- For a configured state with an available frame, a normal tick
clears the availability event and runs the pipeline on the slot
payload. -/
theorem update_frame_normal (env : Env) (cfg : RefConfig) (s : AppState)
    (p : FramePayload) (hconf : s.is_configured = true)
    (havail : s.channel.available = true)
    (hslot : s.channel.slot = some p) :
    update_frame env cfg false s =
      processFrame env cfg
        { s with channel := { s.channel with available := false } } p := by
  unfold update_frame
  rw [hconf, havail]
  simp only [Bool.true_eq_false, if_false, Bool.true_or, if_true,
    Bool.false_eq_true]
  rw [show ({ s with channel :=
      { s.channel with available := false } } : AppState).channel.slot =
      s.channel.slot from rfl, hslot]

/-- When fewer than 11 ratio-test-accepted matches exist for the frame,
`processFrame` computes no homography, projects no gaze point, and
leaves the AOI list, gaze history, recorded rows and frame counter
untouched. -/
theorem processFrame_skip_of_few_matches (env : Env) (cfg : RefConfig)
    (s : AppState) (p : FramePayload)
    (hfew : (goodMatchesFor env cfg p.frame).length < 11) :
    (processFrame env cfg s p).2.homography = none ∧
    (processFrame env cfg s p).2.projected = none ∧
    (processFrame env cfg s p).1.aoi_list = s.aoi_list ∧
    (processFrame env cfg s p).1.gaze_history = s.gaze_history ∧
    (processFrame env cfg s p).1.recorded_data = s.recorded_data ∧
    (processFrame env cfg s p).1.frame_counter = s.frame_counter := by
  have hng : ¬ ((goodMatchesFor env cfg p.frame).length > 10) := by omega
  unfold processFrame
  simp only [goodMatchesFor] at hng
  dsimp only
  split <;> (refine ⟨rfl, rfl, ?_, ?_, ?_, ?_⟩ <;> simp)

/-- C3: for a normal tick whose frame yields fewer than 11
ratio-test-accepted matches, registration fails — no homography is
computed, no gaze point is projected, and the AOI list, heatmap history,
recorded rows and frame counter are unchanged. -/
theorem insufficient_matches_skip_tick (env : Env) (cfg : RefConfig)
    (s : AppState) (p : FramePayload)
    (hconf : s.is_configured = true)
    (havail : s.channel.available = true)
    (hslot : s.channel.slot = some p)
    (hfew : (goodMatchesFor env cfg p.frame).length < 11) :
    (update_frame env cfg false s).2.homography = none ∧
    (update_frame env cfg false s).2.projected = none ∧
    (update_frame env cfg false s).1.aoi_list = s.aoi_list ∧
    (update_frame env cfg false s).1.gaze_history = s.gaze_history ∧
    (update_frame env cfg false s).1.recorded_data = s.recorded_data ∧
    (update_frame env cfg false s).1.frame_counter = s.frame_counter := by
  rw [update_frame_normal env cfg s p hconf havail hslot]
  exact processFrame_skip_of_few_matches env cfg _ p hfew

/-- The recorded rows after `processFrame` are the previous rows, plus —
only when recording is active and a homography was found — one new row
whose scores are exactly the frame payload's scores. -/
theorem processFrame_recorded_rows (env : Env) (cfg : RefConfig)
    (s : AppState) (p : FramePayload) :
    ∀ row ∈ (processFrame env cfg s p).1.recorded_data,
      row ∈ s.recorded_data ∨
      (row.scoreRight = p.score_right ∧ row.scoreLeft = p.score_left) := by
  unfold processFrame
  dsimp only
  split <;>
    first
      | exact fun row hrow => Or.inl (by simpa using hrow)
      | (split <;>
          first
            | exact fun row hrow => Or.inl (by simpa using hrow)
            | (split
               · intro row hrow
                 simp only [withShape_is_recording,
                   withShape_recorded_data] at hrow
                 cases hr : s.is_recording with
                 | false =>
                     simp only [hr, Bool.false_eq_true, if_false] at hrow
                     exact Or.inl hrow
                 | true =>
                     simp only [hr, if_true, List.mem_append,
                       List.mem_singleton] at hrow
                     rcases hrow with h | rfl
                     · exact Or.inl h
                     · exact Or.inr ⟨rfl, rfl⟩
               · exact fun row hrow => Or.inl (by simpa using hrow)))

/-- A concrete instantiation of `insufficient_matches_skip_tick`: with a
matcher returning no candidates, zero matches pass the ratio test. -/
theorem insufficient_matches_skip_tick_witness :
    (update_frame envFew cfgC false stateC).2.homography = none ∧
    (update_frame envFew cfgC false stateC).2.projected = none ∧
    (update_frame envFew cfgC false stateC).1.aoi_list = stateC.aoi_list ∧
    (update_frame envFew cfgC false stateC).1.gaze_history =
      stateC.gaze_history ∧
    (update_frame envFew cfgC false stateC).1.recorded_data =
      stateC.recorded_data ∧
    (update_frame envFew cfgC false stateC).1.frame_counter =
      stateC.frame_counter :=
  insufficient_matches_skip_tick envFew cfgC stateC payloadC rfl rfl rfl
    (by norm_num [goodMatchesFor, ratioTest, envFew, envC, cfgC, payloadC])

/-- C10: each optional score field defaults independently — for every
message lacking `score_right` (respectively `score_left`), the receiver
stores `0` for that missing field in the shared slot, and every recorded
row a tick produces from that slot carries `0` (never an empty or absent
value) in the corresponding column. -/
theorem missing_scores_recorded_as_zero (env : Env) (cfg : RefConfig)
    (m : Message) (s : AppState) :
    (m.score_right = none →
      (payloadOfMessage m).score_right = 0 ∧
      ∀ row ∈ (update_frame env cfg false
          { s with channel := publishMsg s.channel m }).1.recorded_data,
        row ∈ s.recorded_data ∨ row.scoreRight = 0) ∧
    (m.score_left = none →
      (payloadOfMessage m).score_left = 0 ∧
      ∀ row ∈ (update_frame env cfg false
          { s with channel := publishMsg s.channel m }).1.recorded_data,
        row ∈ s.recorded_data ∨ row.scoreLeft = 0) := by
  have key : ∀ row ∈ (update_frame env cfg false
      { s with channel := publishMsg s.channel m }).1.recorded_data,
      row ∈ s.recorded_data ∨
      (row.scoreRight = (payloadOfMessage m).score_right ∧
       row.scoreLeft = (payloadOfMessage m).score_left) := by
    intro row hrow
    by_cases hc : s.is_configured = true
    · rw [update_frame_normal env cfg
        { s with channel := publishMsg s.channel m } (payloadOfMessage m)
        hc rfl rfl] at hrow
      exact processFrame_recorded_rows env cfg
        { { s with channel := publishMsg s.channel m } with
          channel := { (publishMsg s.channel m) with available := false } }
        (payloadOfMessage m) row hrow
    · rw [show (update_frame env cfg false
          { s with channel := publishMsg s.channel m }) =
          ({ s with channel := publishMsg s.channel m }, noTick) from by
        unfold update_frame
        simp only [Bool.not_eq_true] at hc
        rw [show ({ s with channel := publishMsg s.channel m } :
          AppState).is_configured = s.is_configured from rfl, hc]
        simp] at hrow
      exact Or.inl hrow
  constructor
  · intro hr
    have hpr : (payloadOfMessage m).score_right = 0 := by
      simp [payloadOfMessage, hr]
    refine ⟨hpr, ?_⟩
    intro row hrow
    rcases key row hrow with h | h
    · exact Or.inl h
    · exact Or.inr (by rw [h.1, hpr])
  · intro hl
    have hpl : (payloadOfMessage m).score_left = 0 := by
      simp [payloadOfMessage, hl]
    refine ⟨hpl, ?_⟩
    intro row hrow
    rcases key row hrow with h | h
    · exact Or.inl h
    · exact Or.inr (by rw [h.2, hpl])

/-- A concrete instantiation of `missing_scores_recorded_as_zero`, once
at a message lacking only `score_right` and once at a message lacking
only `score_left`. -/
theorem missing_scores_recorded_as_zero_witness :
    ((payloadOfMessage msgNoRight).score_right = 0 ∧
      ∀ row ∈ (update_frame envC cfgC false
          { stateC with channel :=
              publishMsg stateC.channel msgNoRight }).1.recorded_data,
        row ∈ stateC.recorded_data ∨ row.scoreRight = 0) ∧
    ((payloadOfMessage msgNoLeft).score_left = 0 ∧
      ∀ row ∈ (update_frame envC cfgC false
          { stateC with channel :=
              publishMsg stateC.channel msgNoLeft }).1.recorded_data,
        row ∈ stateC.recorded_data ∨ row.scoreLeft = 0) :=
  ⟨(missing_scores_recorded_as_zero envC cfgC msgNoRight stateC).1 rfl,
   (missing_scores_recorded_as_zero envC cfgC msgNoLeft stateC).2 rfl⟩

/-! ## Gaze validity (C4) -/

/-- C4 (amended): the pipeline applies no range or validity check to the
incoming normalized gaze.  A tick whose gaze lies outside [0,1]×[0,1] is
processed exactly like any other: when registration succeeds, the gaze
is projected, the heatmap history is extended with the projected point,
the AOI list is stepped with it, and a row is recorded when recording is
active.  The unamended claim (a short-circuit on invalid gaze) is
refuted by `gaze_range_unchecked_cex`. -/
theorem out_of_range_gaze_still_processed (env : Env) (cfg : RefConfig)
    (s : AppState) (p : FramePayload) (M : ℚ × ℚ → ℚ × ℚ)
    (hconf : s.is_configured = true)
    (havail : s.channel.available = true)
    (hslot : s.channel.slot = some p)
    (_hout : ¬ (0 ≤ p.gaze_x ∧ p.gaze_x ≤ 1 ∧
               0 ≤ p.gaze_y ∧ p.gaze_y ≤ 1))
    (hdesc : (env.detect (env.undistortCropGray (env.frameShape p.frame)
        p.frame)).2.length > 0)
    (hgood : (goodMatchesFor env cfg p.frame).length > 10)
    (hM : env.findHomography (dstPtsFor env cfg p.frame)
        (srcPtsFor env cfg p.frame) = some M) :
    (update_frame env cfg false s).2.homography = some M ∧
    (update_frame env cfg false s).2.projected =
      some (M (undistortedGaze env p)) ∧
    (update_frame env cfg false s).1.gaze_history =
      dequePush s.max_history s.gaze_history
        (truncInt (M (undistortedGaze env p)).1,
         truncInt (M (undistortedGaze env p)).2) ∧
    (update_frame env cfg false s).1.aoi_list =
      (aoiScan (env.parseTime p.system_time)
        (M (undistortedGaze env p)).1 (M (undistortedGaze env p)).2
        s.aoi_list "").1 ∧
    (update_frame env cfg false s).1.recorded_data.length =
      (if s.is_recording then s.recorded_data.length + 1
       else s.recorded_data.length) := by
  have hgood2 : (ratioTest (env.knnMatch cfg.ref_descriptors
      (env.detect (env.undistortCropGray (env.frameShape p.frame)
        p.frame)).2)).length > 10 := hgood
  have hM2 : env.findHomography
      (List.map (fun m =>
          (env.detect (env.undistortCropGray (env.frameShape p.frame)
            p.frame)).1.getD m.trainIdx (0, 0))
        (ratioTest (env.knnMatch cfg.ref_descriptors
          (env.detect (env.undistortCropGray (env.frameShape p.frame)
            p.frame)).2)))
      (List.map (fun m => cfg.ref_keypoints.getD m.queryIdx (0, 0))
        (ratioTest (env.knnMatch cfg.ref_descriptors
          (env.detect (env.undistortCropGray (env.frameShape p.frame)
            p.frame)).2))) = some M := hM
  rw [update_frame_normal env cfg s p hconf havail hslot]
  unfold processFrame
  dsimp only
  rw [if_pos hdesc, if_pos hgood2, hM2]
  refine ⟨rfl, rfl, ?_, ?_, ?_⟩
  · simp [undistortedGaze]
  · simp [undistortedGaze]
  · cases hr : s.is_recording <;> simp [hr]

/-- A concrete instantiation of `out_of_range_gaze_still_processed` at
the out-of-range gaze (2, 2). -/
theorem out_of_range_gaze_still_processed_witness :
    (update_frame envC cfgC false stateC).2.homography =
      some (fun q : ℚ × ℚ => q) ∧
    (update_frame envC cfgC false stateC).2.projected =
      some ((fun q : ℚ × ℚ => q) (undistortedGaze envC payloadC)) ∧
    (update_frame envC cfgC false stateC).1.gaze_history =
      dequePush stateC.max_history stateC.gaze_history
        (truncInt ((fun q : ℚ × ℚ => q)
          (undistortedGaze envC payloadC)).1,
         truncInt ((fun q : ℚ × ℚ => q)
          (undistortedGaze envC payloadC)).2) ∧
    (update_frame envC cfgC false stateC).1.aoi_list =
      (aoiScan (envC.parseTime payloadC.system_time)
        ((fun q : ℚ × ℚ => q) (undistortedGaze envC payloadC)).1
        ((fun q : ℚ × ℚ => q) (undistortedGaze envC payloadC)).2
        stateC.aoi_list "").1 ∧
    (update_frame envC cfgC false stateC).1.recorded_data.length =
      (if stateC.is_recording then stateC.recorded_data.length + 1
       else stateC.recorded_data.length) :=
  out_of_range_gaze_still_processed envC cfgC stateC payloadC
    (fun q => q) rfl rfl rfl
    (by norm_num [payloadC])
    (by norm_num [envC, payloadC])
    (by norm_num [goodMatchesFor, ratioTest, envC, cfgC, payloadC,
      goodPair])
    rfl

/-- C4 is refuted as stated: for the tick whose normalized gaze is
(2, 2) — outside [0,1]×[0,1] — the pipeline does not short-circuit: a
gaze point is projected, the heatmap history grows, the AOI registers a
hit, and a row is recorded. -/
theorem gaze_range_unchecked_cex :
    (1 : ℚ) < payloadC.gaze_x ∧ (1 : ℚ) < payloadC.gaze_y ∧
    (update_frame envC cfgC false stateC).2.projected.isSome = true ∧
    (update_frame envC cfgC false stateC).1.gaze_history.length = 1 ∧
    stateC.gaze_history.length = 0 ∧
    (update_frame envC cfgC false stateC).1.aoi_list.map AOI.hit_count =
      [1] ∧
    stateC.aoi_list.map AOI.hit_count = [0] ∧
    (update_frame envC cfgC false stateC).1.recorded_data.length = 1 ∧
    stateC.recorded_data.length = 0 := by
  norm_num [update_frame, processFrame, withShape, ratioTest, dequePush,
    aoiScan, aoiStep, Rect.containsPt, envC, cfgC, payloadC, stateC,
    aoiC, goodPair, noTick]

/-! ## Preview redraws (C5) -/

/-- The pipeline body never touches the mailbox. -/
theorem processFrame_channel (env : Env) (cfg : RefConfig) (s : AppState)
    (p : FramePayload) :
    (processFrame env cfg s p).1.channel = s.channel := by
  unfold processFrame
  dsimp only
  split
  · split
    · split
      · simp
      · simp
    · simp
  · simp

/-- C5 (amended): a preview-only redraw does not consume the
availability event, but it does not reuse the last rendered state
either: whenever the engine is configured and the slot holds a payload,
the preview tick runs the full `processFrame` pipeline on that payload —
keypoint detection, descriptor matching, homography estimation, and the
AOI, heatmap-history and record updates — exactly as a normal tick
would, leaving only the mailbox untouched.  The unamended claim is
refuted by `preview_redraw_reprocesses_cex`. -/
theorem preview_tick_reruns_pipeline (env : Env) (cfg : RefConfig)
    (s : AppState) (p : FramePayload)
    (hconf : s.is_configured = true)
    (hslot : s.channel.slot = some p) :
    update_frame env cfg true s = processFrame env cfg s p ∧
    (update_frame env cfg true s).1.channel = s.channel := by
  have he : update_frame env cfg true s = processFrame env cfg s p := by
    simp [update_frame, hconf, hslot]
  exact ⟨he, by rw [he]; exact processFrame_channel env cfg s p⟩

/-- A concrete instantiation of `preview_tick_reruns_pipeline` at a
state whose frame was already consumed. -/
theorem preview_tick_reruns_pipeline_witness :
    update_frame envC cfgC true stateConsumed =
      processFrame envC cfgC stateConsumed payloadC ∧
    (update_frame envC cfgC true stateConsumed).1.channel =
      stateConsumed.channel :=
  preview_tick_reruns_pipeline envC cfgC stateConsumed payloadC rfl rfl

/-- C5 is refuted as stated: on a state whose frame was already consumed
(availability clear), a normal tick is a no-op, yet a preview-only
redraw re-runs registration (a homography is estimated again) and
re-applies the heatmap-history and record updates for the
already-consumed frame. -/
theorem preview_redraw_reprocesses_cex :
    stateConsumed.channel.available = false ∧
    (update_frame envC cfgC false stateConsumed).1 = stateConsumed ∧
    (update_frame envC cfgC false stateConsumed).2 = noTick ∧
    (update_frame envC cfgC true stateConsumed).2.homography.isSome =
      true ∧
    (update_frame envC cfgC true stateConsumed).1.gaze_history.length =
      1 ∧
    stateConsumed.gaze_history.length = 0 ∧
    (update_frame envC cfgC true stateConsumed).1.recorded_data.length =
      1 ∧
    stateConsumed.recorded_data.length = 0 := by
  norm_num [update_frame, processFrame, withShape, ratioTest, dequePush,
    aoiScan, aoiStep, Rect.containsPt, envC, cfgC, payloadC, stateC,
    stateConsumed, aoiC, goodPair, noTick]

/-! ## Configuration (C8) -/

/-- C8 (amended): `apply_settings` activates the engine exactly when
every validation passes, and a failed application leaves the engine's
readiness unchanged (the timer and receiver never start).  Configuration
state is, however, not atomically protected — see
`apply_settings_partial_write_cex`. -/
theorem apply_settings_gates_activation (inp : SettingsInput)
    (c : SessionConfig) :
    (apply_settings inp c).2 = validSettings inp ∧
    (apply_settings inp c).1.engine_ready =
      (c.engine_ready || validSettings inp) := by
  obtain ⟨ip, ir, cp, dp, cu⟩ := inp
  cases ir <;> cases cp <;> cases dp <;>
    (unfold apply_settings validSettings
     dsimp only
     split_ifs <;> simp_all)

/-- C8 is refuted as stated: a wrong-shape (2×2) camera matrix blocks
activation, yet the configuration is partially overwritten — both the
reference image slot and the camera matrix now differ from their
previous values. -/
theorem apply_settings_partial_write_cex :
    (apply_settings badShapeInput sessionC).2 = false ∧
    (apply_settings badShapeInput sessionC).1.camera_matrix ≠
      sessionC.camera_matrix ∧
    (apply_settings badShapeInput sessionC).1.ref_image ≠
      sessionC.ref_image := by
  decide

end GazeMapping
